import Mathlib

/-!
Shallow embedding of the `UserKeyPairAgent` policy agent from
`src/model/src/lib.rs` (ankurah-react-sled-template).

The agent implements Ed25519-based request signing (client role), request
verification (server role) and the per-checkpoint authorization rules.
External collaborators (the `proto` crate's `EntityId` base64 codec, the
`ed25519_dalek` primitives, `serde_json` canonical encoding, `base64`
decoding, and the entity-store user lookup performed through the root
context) are not part of this repository's sources; they are modelled as
abstract function parameters bundled in `SignerOps` / `VerifierEnv`.

Rust panics (`panic!`, `.expect`) are modelled as the `Outcome.fatal` /
`Except.error` cases so that fatal contract violations are distinguishable
from typed `ValidationError` / `AccessDenied` results.
-/

namespace AnkurahPolicy

/-- Byte strings (`Vec<u8>`); each element stands for one byte. -/
abbrev Bytes := List Nat

/-- `proto::EntityId` — a 16-byte opaque identifier (`from_bytes([u8; 16])`). -/
structure EntityId where
  bytes : Bytes
deriving DecidableEq, Repr

/-- `MyContextData` from `src/model/src/lib.rs`: the three security contexts. -/
inductive MyContextData where
  /-- Authenticated user by EntityId. -/
  | user (id : EntityId)
  /-- System/root context — only constructable locally, never from AuthData. -/
  | root
  /-- Anonymous/unauthenticated context — for user self-registration. -/
  | anonymous
deriving DecidableEq, Repr

/-- `ValidationError` (from `ankurah::core::error`), as used by `check_request`:
every failure path constructs `ValidationError::ValidationFailed(msg)`. -/
inductive ValidationError where
  | validationFailed (msg : String)
deriving DecidableEq, Repr

/-- `AccessDenied` as used by `check_event`: `AccessDenied::ByPolicy(reason)`. -/
inductive AccessDenied where
  | byPolicy (reason : String)
deriving DecidableEq, Repr

/-- Result of a Rust call that can return a value, return a typed error, or
panic.  `fatal` models a Rust panic / a failed `.expect`. -/
inductive Outcome (ε α : Type) where
  | ok (a : α)
  | err (e : ε)
  | fatal (msg : String)
deriving DecidableEq, Repr

namespace Outcome

def map {ε α β : Type} (f : α → β) : Outcome ε α → Outcome ε β
  | .ok a => .ok (f a)
  | .err e => .err e
  | .fatal m => .fatal m

end Outcome

/-- `ankurah::core::value::Value`, restricted to the shapes this policy code
can observe on the `user` field (`Value::String` plus a non-string case, since
`check_event` pattern-matches specifically on `Some(Value::String(_))`). -/
inductive Value where
  | string (s : String)
  | integer (i : Int)
deriving DecidableEq, Repr

/-- The entity as seen by `check_event`: a collection tag
(`entity_after.collection().as_str()`) and named field values
(`entity_after.value(name)`). -/
structure Entity where
  collection : String
  fields : List (String × Value)
deriving DecidableEq, Repr

/-- `entity.value(name)` — lookup of a named field value. -/
def Entity.value (e : Entity) (name : String) : Option Value :=
  (e.fields.find? (fun p => p.1 == name)).map (fun p => p.2)

/-- `UserView` as consumed by `check_request`: `user_view.pub_key()` returns a
base64 string or fails (`none`). -/
structure UserView where
  pub_key : Option String
deriving DecidableEq, Repr

/-- `AgentVariant` from the source: a client holds a signing key, a server
holds a lazily-initialized root context (`OnceCell<Context>` modelled as
`Option Ctx`). -/
inductive AgentVariant (SK Ctx : Type) where
  | client (signing_key : SK)
  | server (root_context : Option Ctx)
deriving DecidableEq, Repr

/-- External collaborators used by the client-side `sign_request`:
`serde_json::to_vec` (fallible canonical encoding) and the Ed25519
`signing_key.sign` producing a 64-byte signature. -/
structure SignerOps (Req SK : Type) where
  encode : Req → Option Bytes
  sign : SK → Bytes → Bytes

/-- External collaborators used by the server-side `check_request`:
the root-context user lookup, `base64::decode`, `VerifyingKey::from_bytes`
(applied after the 32-byte length check), `serde_json::to_vec`, and
`verifying_key.verify`. -/
structure VerifierEnv (Req VK : Type) where
  lookupUser : EntityId → Option UserView
  base64Decode : String → Option Bytes
  vkFromBytes : Bytes → Option VK
  encode : Req → Option Bytes
  verify : VK → Bytes → Bytes → Bool

/-- Rust's `str::eq_ignore_ascii_case`: ASCII-lowercase each character. -/
def asciiLowercase (c : Char) : Char :=
  if 65 ≤ c.toNat ∧ c.toNat ≤ 90 then Char.ofNat (c.toNat + 32) else c

def eq_ignore_ascii_case (a b : String) : Bool :=
  a.data.map asciiLowercase == b.data.map asciiLowercase

/-- Client-side token production, one token per context datum, in order
(the loop body of `sign_request`'s `Client` arm).  A `Root` context panics
(`Root context should not be used from client`); a failed request encoding
panics via `.expect("Failed to serialize request")`. -/
def signTokens {Req SK : Type} (ops : SignerOps Req SK) (signing_key : SK)
    (request : Req) : List MyContextData → Except String (List Bytes)
  | [] => .ok []
  | ctx :: rest =>
    match ctx with
    | .user user_id =>
      match ops.encode request with
      | none => .error "Failed to serialize request"
      | some request_bytes =>
        let signature := ops.sign signing_key request_bytes
        let auth_data := user_id.bytes ++ signature
        (signTokens ops signing_key request rest).map (fun ts => auth_data :: ts)
    | .anonymous =>
      (signTokens ops signing_key request rest).map (fun ts => [] :: ts)
    | .root => .error "Root context should not be used from client"

/-- `sign_request` from the source: the client arm signs each context, the
server arm returns a single empty auth datum. -/
def sign_request {Req SK Ctx : Type} (ops : SignerOps Req SK)
    (agent : AgentVariant SK Ctx) (cdata : List MyContextData) (request : Req) :
    Except String (List Bytes) :=
  match agent with
  | .client signing_key => signTokens ops signing_key request cdata
  | .server _ => .ok [[]]

/-- Per-token body of the `check_request` loop:
empty auth data ⇒ `Anonymous`; fewer than 80 bytes ⇒ `ValidationFailed
("Insufficient auth data: got n bytes, expected 80")`; otherwise split into a
16-byte user id and 64-byte signature, fetch the user through the root
context (server only; a client returns `ValidationFailed("Client cannot
validate requests")`, an uninitialized root context panics), decode and check
the stored public key, re-encode the request and verify the signature. -/
def checkToken {Req VK SK Ctx : Type} (env : VerifierEnv Req VK)
    (agent : AgentVariant SK Ctx) (request : Req) (bytes : Bytes) :
    Outcome ValidationError MyContextData :=
  if bytes = [] then .ok .anonymous
  else if bytes.length < 80 then
    .err (.validationFailed
      ("Insufficient auth data: got " ++ toString bytes.length ++ " bytes, expected 80"))
  else
    match agent with
    | .client _ => .err (.validationFailed "Client cannot validate requests")
    | .server root_context =>
      match root_context with
      | none => .fatal "Root context not initialized - call initialize_root_context first"
      | some _ =>
        match env.lookupUser ⟨bytes.take 16⟩ with
        | none => .err (.validationFailed "User not found")
        | some user_view =>
          match user_view.pub_key with
          | none => .err (.validationFailed "Failed to get public key")
          | some pub_key_str =>
            match env.base64Decode pub_key_str with
            | none => .err (.validationFailed "Invalid public key encoding")
            | some pub_key_bytes =>
              if pub_key_bytes.length ≠ 32 then
                .err (.validationFailed "Invalid public key length")
              else
                match env.vkFromBytes pub_key_bytes with
                | none => .err (.validationFailed "Invalid public key")
                | some verifying_key =>
                  match env.encode request with
                  | none => .err (.validationFailed "Failed to serialize request")
                  | some request_bytes =>
                    if env.verify verifying_key request_bytes ((bytes.drop 16).take 64) then
                      .ok (.user ⟨bytes.take 16⟩)
                    else
                      .err (.validationFailed "Signature verification failed")

/-- `check_request` from the source: process the auth data in order, pushing
one recovered context per token; the first error aborts the whole call. -/
def check_request {Req VK SK Ctx : Type} (env : VerifierEnv Req VK)
    (agent : AgentVariant SK Ctx) (auth : List Bytes) (request : Req) :
    Outcome ValidationError (List MyContextData) :=
  match auth with
  | [] => .ok []
  | auth_data :: rest =>
    match checkToken env agent request auth_data with
    | .ok c => (check_request env agent rest request).map (fun cs => c :: cs)
    | .err e => .err e
    | .fatal m => .fatal m

/-- `initialize_root_context`: on a server agent, `OnceCell::set` stores the
freshly built root context only if the cell is still empty (the `Err` of a
second `set` is discarded with `let _ =`); a client agent is left unchanged. -/
def initialize_root_context {SK Ctx : Type} (agent : AgentVariant SK Ctx)
    (ctx : Ctx) : AgentVariant SK Ctx :=
  match agent with
  | .server none => .server (some ctx)
  | .server (some c) => .server (some c)
  | .client sk => .client sk

/-- `get_root_context`: panics (`.expect(..)`) on an uninitialized server
cell, and panics on a client agent. -/
def get_root_context {SK Ctx : Type} :
    AgentVariant SK Ctx → Outcome ValidationError Ctx
  | .server (some c) => .ok c
  | .server none =>
    .fatal "Root context not initialized - call initialize_root_context first"
  | .client _ => .fatal "get_root_context called on non-client variant"

/-- `check_event` from the source.  `fromBase64` models
`proto::EntityId::from_base64` (external `proto` crate). Rule order: Root
bypasses everything; Anonymous may only touch the `user` collection
(case-insensitive); an authenticated user writing a `message` collection
entity must own the entity's `user` field when it is present as a string. -/
def check_event (fromBase64 : String → Option EntityId)
    (cdata : MyContextData) (entity_after : Entity) :
    Except AccessDenied (Option Unit) :=
  match cdata with
  | .root => .ok none
  | .anonymous =>
    if eq_ignore_ascii_case entity_after.collection "user" then .ok none
    else .error (.byPolicy "Anonymous context can only create User entities")
  | .user authenticated_user =>
    if eq_ignore_ascii_case entity_after.collection "message" then
      match entity_after.value "user" with
      | some (.string message_user) =>
        match fromBase64 message_user with
        | none => .error (.byPolicy "Invalid user ID in message")
        | some message_user_id =>
          if message_user_id ≠ authenticated_user then
            .error (.byPolicy "Message user mismatch")
          else .ok none
      | _ => .ok none
    else .ok none

/-- `check_read` from the source: unconditionally `Ok(())`. -/
def check_read {St : Type} (_data : List MyContextData) (_id : EntityId)
    (_collection : String) (_state : St) : Except AccessDenied Unit :=
  .ok ()

/-- `can_access_collection` from the source: unconditionally `Ok(())`. -/
def can_access_collection (_data : List MyContextData) (_collection : String) :
    Except AccessDenied Unit :=
  .ok ()

/-- `filter_predicate` from the source: returns the predicate unchanged. -/
def filter_predicate {Pred : Type} (_data : List MyContextData)
    (_collection : String) (predicate : Pred) : Except AccessDenied Pred :=
  .ok predicate

/-- `validate_causal_assertion` from the source: unconditionally `Ok(())`
(it receives no caller context at all). -/
def validate_causal_assertion {CA : Type} (_peer_id : EntityId)
    (_head_relation : CA) : Except AccessDenied Unit :=
  .ok ()

/-- `check_write` from the source: unconditionally `Ok(())`. -/
def check_write {Ev : Type} (_data : MyContextData) (_entity : Entity)
    (_event : Option Ev) : Except AccessDenied Unit :=
  .ok ()

/-- `true` exactly when the modelled Rust call panicked. -/
def panicked {α : Type} : Except String α → Bool
  | .error _ => true
  | .ok _ => false

/-! ## Concrete instances used by witnesses and counterexamples -/

/-- A concrete verifier environment (all collaborators total and trivial). -/
def envN : VerifierEnv Nat Nat where
  lookupUser := fun _ => some ⟨some "PK"⟩
  base64Decode := fun _ => some (List.replicate 32 5)
  vkFromBytes := fun _ => some 0
  encode := fun _ => some [1, 2, 3]
  verify := fun _ _ _ => true

/-- A concrete signer-side collaborator set matching `envN`. -/
def opsN : SignerOps Nat Nat where
  encode := fun _ => some [1, 2, 3]
  sign := fun _ _ => List.replicate 64 9

/-! ## Helper lemmas -/

theorem checkToken_ok_not_root {Req VK SK Ctx : Type} (env : VerifierEnv Req VK)
    (agent : AgentVariant SK Ctx) (request : Req) (b : Bytes) (c : MyContextData)
    (h : checkToken env agent request b = .ok c) : c ≠ MyContextData.root := by
  unfold checkToken at h
  repeat' split at h
  all_goals first | (cases h; simp) | simp_all

theorem check_request_nil {Req VK SK Ctx : Type} (env : VerifierEnv Req VK)
    (agent : AgentVariant SK Ctx) (request : Req) :
    check_request env agent [] request = .ok [] := rfl

theorem check_request_cons {Req VK SK Ctx : Type} (env : VerifierEnv Req VK)
    (agent : AgentVariant SK Ctx) (request : Req) (b : Bytes) (rest : List Bytes) :
    check_request env agent (b :: rest) request =
      match checkToken env agent request b with
      | .ok c => (check_request env agent rest request).map (fun cs => c :: cs)
      | .err e => .err e
      | .fatal m => .fatal m := rfl

/-! ## Claims -/

/-- Claim C1: every context produced by a successful `check_request` is
`Anonymous` or `Authenticated` — the verifier never yields the `Root`/System
context from inbound wire data. -/
theorem C1_verifier_never_emits_root {Req VK SK Ctx : Type}
    (env : VerifierEnv Req VK) (agent : AgentVariant SK Ctx)
    (auth : List Bytes) (request : Req) (ctxs : List MyContextData)
    (h : check_request env agent auth request = .ok ctxs) :
    MyContextData.root ∉ ctxs := by
  induction auth generalizing ctxs with
  | nil =>
    rw [check_request_nil] at h
    cases h
    simp
  | cons b rest ih =>
    rw [check_request_cons] at h
    cases hb : checkToken env agent request b with
    | ok c =>
      rw [hb] at h
      cases hr : check_request env agent rest request with
      | ok cs =>
        rw [hr] at h
        cases h
        have hc := checkToken_ok_not_root env agent request b c hb
        have hcs := ih cs hr
        simp [List.mem_cons]
        exact ⟨fun he => hc he.symm, hcs⟩
      | err e => rw [hr] at h; simp [Outcome.map] at h
      | fatal m => rw [hr] at h; simp [Outcome.map] at h
    | err e => rw [hb] at h; simp at h
    | fatal m => rw [hb] at h; simp at h

/-- Witness for C1: a concrete successful verification (one empty token on a
server agent) yields `[Anonymous]`, which does not contain `Root`. -/
theorem C1_verifier_never_emits_root_witness :
    MyContextData.root ∉ [MyContextData.anonymous] :=
  C1_verifier_never_emits_root envN
    (AgentVariant.server (some 0) : AgentVariant Nat Nat) [[]] 0
    [MyContextData.anonymous] (by decide)

/-- Claim C3: under an Anonymous context, `check_event` allows the operation
iff the entity's collection tag equals "user" case-insensitively, and denies
every other collection with the policy reason that anonymous may only create
User/identity entities. -/
theorem C3_anonymous_scope (fromBase64 : String → Option EntityId) (ent : Entity) :
    check_event fromBase64 MyContextData.anonymous ent =
      if eq_ignore_ascii_case ent.collection "user" then Except.ok none
      else Except.error
        (AccessDenied.byPolicy "Anonymous context can only create User entities") := rfl

/-- Claim C4: every checkpoint invoked with the Root/System context allows:
`check_event` allows any entity (in particular a `message` entity whose
`user` field names a different actor, since no field is inspected),
`check_read`, `can_access_collection`, `validate_causal_assertion` and
`check_write` return `Ok(())`, and `filter_predicate` returns the predicate
unchanged. -/
theorem C4_root_bypasses_all_checkpoints {St Pred CA Ev : Type}
    (fromBase64 : String → Option EntityId) (ent : Entity) (id : EntityId)
    (coll : String) (st : St) (p : Pred) (peer : EntityId) (ca : CA)
    (ev : Option Ev) :
    check_event fromBase64 MyContextData.root ent = Except.ok none
    ∧ check_read [MyContextData.root] id coll st = Except.ok ()
    ∧ can_access_collection [MyContextData.root] coll = Except.ok ()
    ∧ filter_predicate [MyContextData.root] coll p = Except.ok p
    ∧ validate_causal_assertion peer ca = Except.ok ()
    ∧ check_write MyContextData.root ent ev = Except.ok () :=
  ⟨rfl, rfl, rfl, rfl, rfl, rfl⟩

/-- Claim C9: root-context initialization is idempotent on a server agent —
a second `initialize_root_context` is a no-op (the first stored value is
retained), initializing an empty cell stores the given context, and
`get_root_context` afterwards observes an initialized context (the first
value if the cell was already set). -/
theorem C9_initialize_root_context_idempotent {SK Ctx : Type}
    (rc : Option Ctx) (c c' : Ctx) :
    initialize_root_context
        (initialize_root_context (AgentVariant.server rc : AgentVariant SK Ctx) c) c'
      = initialize_root_context (AgentVariant.server rc) c
    ∧ initialize_root_context (AgentVariant.server none : AgentVariant SK Ctx) c
      = AgentVariant.server (some c)
    ∧ get_root_context
        (initialize_root_context (AgentVariant.server rc : AgentVariant SK Ctx) c)
      = Outcome.ok (rc.getD c) := by
  cases rc <;> exact ⟨rfl, rfl, rfl⟩

theorem Outcome.map_ok {ε α β : Type} (f : α → β) (a : α) :
    Outcome.map f (.ok a : Outcome ε α) = .ok (f a) := rfl

theorem Outcome.map_err {ε α β : Type} (f : α → β) (e : ε) :
    Outcome.map f (.err e : Outcome ε α) = .err e := rfl

theorem Outcome.map_fatal {ε α β : Type} (f : α → β) (m : String) :
    Outcome.map f (.fatal m : Outcome ε α) = .fatal m := rfl

theorem checkToken_empty {Req VK SK Ctx : Type} (env : VerifierEnv Req VK)
    (agent : AgentVariant SK Ctx) (request : Req) :
    checkToken env agent request [] = .ok .anonymous := rfl

theorem checkToken_short {Req VK SK Ctx : Type} (env : VerifierEnv Req VK)
    (agent : AgentVariant SK Ctx) (request : Req) (b : Bytes)
    (hb : b ≠ []) (hl : b.length < 80) :
    checkToken env agent request b =
      .err (.validationFailed
        ("Insufficient auth data: got " ++ toString b.length ++ " bytes, expected 80")) := by
  unfold checkToken
  rw [if_neg hb, if_pos hl]

/-- On a client agent a token is classified purely by its length: empty ⇒
`Anonymous`, short ⇒ too-short error, otherwise the typed
"Client cannot validate requests" error. -/
theorem checkToken_client {Req VK SK Ctx : Type} (env : VerifierEnv Req VK)
    (sk : SK) (request : Req) (b : Bytes) :
    checkToken env (AgentVariant.client sk : AgentVariant SK Ctx) request b =
      if b = [] then .ok .anonymous
      else if b.length < 80 then
        .err (.validationFailed
          ("Insufficient auth data: got " ++ toString b.length ++ " bytes, expected 80"))
      else .err (.validationFailed "Client cannot validate requests") := rfl

theorem check_request_client_not_fatal {Req VK SK Ctx : Type}
    (env : VerifierEnv Req VK) (sk : SK) (request : Req) :
    ∀ (auth : List Bytes) (m : String),
      check_request env (AgentVariant.client sk : AgentVariant SK Ctx) auth request
        ≠ .fatal m := by
  intro auth
  induction auth with
  | nil => intro m h; exact Outcome.noConfusion h
  | cons b rest ih =>
    intro m h
    rw [check_request_cons, checkToken_client] at h
    by_cases h0 : b = []
    · rw [if_pos h0] at h
      cases hr : check_request env (AgentVariant.client sk : AgentVariant SK Ctx)
          rest request with
      | ok cs => rw [hr] at h; exact Outcome.noConfusion h
      | err e => rw [hr] at h; exact Outcome.noConfusion h
      | fatal m' => exact ih m' hr
    · rw [if_neg h0] at h
      by_cases h1 : b.length < 80
      · rw [if_pos h1] at h; exact Outcome.noConfusion h
      · rw [if_neg h1] at h; exact Outcome.noConfusion h

/-- Claim C6: per-token length boundaries in `check_request` — an empty token
contributes `Anonymous`; a non-empty token shorter than 80 bytes, reached
after any prefix of successfully-classified tokens, makes the whole call fail
with `ValidationFailed("Insufficient auth data: got n bytes, expected 80")`;
and whenever any such short token occurs anywhere in the sequence, no context
sequence is ever returned. -/
theorem C6_token_length_boundaries {Req VK SK Ctx : Type}
    (env : VerifierEnv Req VK) (agent : AgentVariant SK Ctx) (request : Req) :
    (∀ rest, check_request env agent ([] :: rest) request
      = (check_request env agent rest request).map (fun cs => .anonymous :: cs))
    ∧ (∀ (pre : List Bytes) (b : Bytes) (rest : List Bytes),
        (∀ t ∈ pre, ∃ c, checkToken env agent request t = .ok c) →
        b ≠ [] → b.length < 80 →
        check_request env agent (pre ++ b :: rest) request
          = .err (.validationFailed
              ("Insufficient auth data: got " ++ toString b.length ++ " bytes, expected 80")))
    ∧ (∀ (auth : List Bytes) (b : Bytes), b ∈ auth → b ≠ [] → b.length < 80 →
        ∀ ctxs, check_request env agent auth request ≠ .ok ctxs) := by
  refine ⟨fun rest => ?_, fun pre b rest hall hb hl => ?_, fun auth b hmem hb hl => ?_⟩
  · rw [check_request_cons, checkToken_empty]
  · induction pre with
    | nil =>
      rw [List.nil_append, check_request_cons, checkToken_short env agent request b hb hl]
    | cons t pre ih =>
      obtain ⟨c, hc⟩ := hall t (List.mem_cons_self t pre)
      rw [List.cons_append, check_request_cons, hc,
        ih (fun u hu => hall u (List.mem_cons_of_mem t hu))]
      rfl
  · induction auth with
    | nil => exact absurd hmem (List.not_mem_nil b)
    | cons t rest ih =>
      intro ctxs h
      rcases List.mem_cons.mp hmem with hbt | hbr
      · subst hbt
        rw [check_request_cons, checkToken_short env agent request b hb hl] at h
        exact Outcome.noConfusion h
      · rw [check_request_cons] at h
        cases ht : checkToken env agent request t with
        | ok c =>
          rw [ht] at h
          cases hr : check_request env agent rest request with
          | ok cs => exact ih hbr cs hr
          | err e => rw [hr] at h; exact Outcome.noConfusion h
          | fatal m => rw [hr] at h; exact Outcome.noConfusion h
        | err e => rw [ht] at h; exact Outcome.noConfusion h
        | fatal m => rw [ht] at h; exact Outcome.noConfusion h

/-- Witness for C6: at a concrete server agent, a single 1-byte token fails
with the too-short error, and that token occurring in a sequence prevents any
successful context list. -/
theorem C6_token_length_boundaries_witness :
    check_request envN (AgentVariant.server (some 0) : AgentVariant Nat Nat)
        ([] :: []) 0
      = (check_request envN (AgentVariant.server (some 0) : AgentVariant Nat Nat)
          [] 0).map (fun cs => .anonymous :: cs)
    ∧ check_request envN (AgentVariant.server (some 0) : AgentVariant Nat Nat)
        ([] ++ [5] :: []) 0
      = .err (.validationFailed "Insufficient auth data: got 1 bytes, expected 80")
    ∧ check_request envN (AgentVariant.server (some 0) : AgentVariant Nat Nat)
        [[5]] 0 ≠ .ok [] := by
  obtain ⟨h1, h2, h3⟩ :=
    C6_token_length_boundaries envN
      (AgentVariant.server (some 0) : AgentVariant Nat Nat) 0
  exact ⟨h1 [], h2 [] [5] [] (by simp) (by decide) (by decide),
    h3 [[5]] [5] (by decide) (by decide) (by decide) []⟩

/-- Counterexample to claim C7 as stated: on a client-role agent,
`check_request` is not a fatal contract violation for every inbound token
sequence — an all-empty token sequence verifies successfully as `Anonymous`,
and a well-formed 80-byte token is rejected with the typed per-request
`ValidationError::ValidationFailed("Client cannot validate requests")`
returned to the caller, not a panic. -/
theorem C7_counterexample :
    check_request envN (AgentVariant.client 0 : AgentVariant Nat Nat) [[]] 0
      = .ok [MyContextData.anonymous]
    ∧ check_request envN (AgentVariant.client 0 : AgentVariant Nat Nat)
        [List.replicate 80 0] 0
      = .err (.validationFailed "Client cannot validate requests") :=
  ⟨by decide, by decide⟩

/-- Claim C7 (amended): invoking verification on a client-role agent never
panics — empty tokens still yield `Anonymous`, and every token of length
at least 80 is rejected with the typed `ValidationFailed("Client cannot
validate requests")` error returned to the caller; the fatal
point-of-call contract violation lives in `get_root_context` (the
directory-lookup capability), which panics on a client-role agent. -/
theorem C7_client_verification_typed_error {Req VK SK Ctx : Type}
    (env : VerifierEnv Req VK) (sk : SK) (request : Req) :
    (∀ (auth : List Bytes) (m : String),
      check_request env (AgentVariant.client sk : AgentVariant SK Ctx) auth request
        ≠ .fatal m)
    ∧ (∀ (b : Bytes) (rest : List Bytes), b ≠ [] → ¬ b.length < 80 →
        check_request env (AgentVariant.client sk : AgentVariant SK Ctx)
          (b :: rest) request
          = .err (.validationFailed "Client cannot validate requests"))
    ∧ get_root_context (AgentVariant.client sk : AgentVariant SK Ctx)
      = .fatal "get_root_context called on non-client variant" := by
  refine ⟨check_request_client_not_fatal env sk request, fun b rest hb hl => ?_, rfl⟩
  rw [check_request_cons, checkToken_client, if_neg hb, if_neg hl]

/-- Witness for the amended C7: concrete client-role calls — no panic on an
empty-token sequence, and the typed error on an 80-byte token. -/
theorem C7_client_verification_typed_error_witness :
    (check_request envN (AgentVariant.client 0 : AgentVariant Nat Nat) [[]] 0
      ≠ .fatal "x")
    ∧ check_request envN (AgentVariant.client 0 : AgentVariant Nat Nat)
        (List.replicate 80 0 :: []) 0
      = .err (.validationFailed "Client cannot validate requests") := by
  obtain ⟨h1, h2, _⟩ := @C7_client_verification_typed_error Nat Nat Nat Nat envN 0 0
  exact ⟨h1 [[]] "x", h2 (List.replicate 80 0) [] (by decide) (by decide)⟩

/-- Claim C8: a client-role `sign_request` whose context sequence contains
the Root/System context always panics ("Root context should not be used from
client" — or an earlier encoding panic) and never returns a token sequence,
so no System-derived token is ever produced. -/
theorem C8_root_context_never_signed {Req SK Ctx : Type} (ops : SignerOps Req SK)
    (sk : SK) (cdata : List MyContextData) (request : Req)
    (h : MyContextData.root ∈ cdata) :
    panicked (sign_request ops (AgentVariant.client sk : AgentVariant SK Ctx)
      cdata request) = true := by
  show panicked (signTokens ops sk request cdata) = true
  induction cdata with
  | nil => exact absurd h (List.not_mem_nil _)
  | cons ctx rest ih =>
    rcases List.mem_cons.mp h with hc | hr
    · subst hc; rfl
    · cases ctx with
      | root => rfl
      | anonymous =>
        show panicked ((signTokens ops sk request rest).map _) = true
        cases hs : signTokens ops sk request rest with
        | ok ts => rw [hs] at ih; exact absurd (ih hr) (by simp [panicked, Except.map])
        | error m => simp [panicked, Except.map]
      | user uid =>
        cases he : ops.encode request with
        | none => simp [signTokens, he, panicked]
        | some rb =>
          show panicked (signTokens ops sk request (MyContextData.user uid :: rest)) = true
          rw [signTokens, he]
          cases hs : signTokens ops sk request rest with
          | ok ts => rw [hs] at ih; exact absurd (ih hr) (by simp [panicked, Except.map])
          | error m => simp [panicked, Except.map]

/-- Witness for C8: signing the singleton Root context on a concrete client
agent panics. -/
theorem C8_root_context_never_signed_witness :
    MyContextData.root ∈ [MyContextData.root]
    ∧ panicked (sign_request opsN
        (AgentVariant.client 0 : AgentVariant Nat Nat) [MyContextData.root] 0)
      = true :=
  ⟨by decide,
    C8_root_context_never_signed opsN 0 [MyContextData.root] 0 (by decide)⟩

/-- A valid 80-byte token (registered actor, well-formed stored key, correct
signature) verifies on an initialized server agent as the embedded actor. -/
theorem checkToken_server_valid {Req VK SK Ctx : Type} (env : VerifierEnv Req VK)
    (c0 : Ctx) (request : Req) (A : EntityId) (sig : Bytes) (pks : String)
    (pkb rb : Bytes) (vk : VK)
    (hA : A.bytes.length = 16) (hsig : sig.length = 64)
    (hlk : env.lookupUser A = some ⟨some pks⟩)
    (hb64 : env.base64Decode pks = some pkb)
    (hpkl : pkb.length = 32)
    (hvk : env.vkFromBytes pkb = some vk)
    (henc : env.encode request = some rb)
    (hver : env.verify vk rb sig = true) :
    checkToken env (AgentVariant.server (some c0) : AgentVariant SK Ctx) request
      (A.bytes ++ sig) = .ok (.user A) := by
  have hlen : (A.bytes ++ sig).length = 80 := by
    rw [List.length_append, hA, hsig]
  have hne : A.bytes ++ sig ≠ [] := by
    intro hcon
    rw [hcon] at hlen
    exact absurd hlen (by decide)
  have hnl : ¬ (A.bytes ++ sig).length < 80 := by
    rw [hlen]
    exact Nat.lt_irrefl 80
  have htake : (A.bytes ++ sig).take 16 = A.bytes := by
    rw [← hA]
    exact List.take_left _ _
  have hid : (⟨(A.bytes ++ sig).take 16⟩ : EntityId) = A := by rw [htake]
  have hdrop : ((A.bytes ++ sig).drop 16).take 64 = sig := by
    rw [← hA, List.drop_left, ← hsig, List.take_length]
  unfold checkToken
  rw [if_neg hne, if_neg hnl]
  simp [hid, hlk, hb64, hpkl, hvk, henc, hdrop, hver]

/-- Claim C5: signing round trip — for a registered actor `A` whose stored
public-key record decodes to a 32-byte verifying key that validates the
client's signature over the canonically encoded request, verifying the token
produced by `sign_request` for the `Authenticated(A)` context yields
`Authenticated(A)` on a server-role agent. -/
theorem C5_sign_verify_round_trip {Req SK VK Ctx : Type} (ops : SignerOps Req SK)
    (env : VerifierEnv Req VK) (sk : SK) (c0 : Ctx) (A : EntityId) (request : Req)
    (pks : String) (pkb rb : Bytes) (vk : VK)
    (hA : A.bytes.length = 16)
    (hsig : (ops.sign sk rb).length = 64)
    (henc : ops.encode request = some rb)
    (henv : env.encode request = some rb)
    (hlk : env.lookupUser A = some ⟨some pks⟩)
    (hb64 : env.base64Decode pks = some pkb)
    (hpkl : pkb.length = 32)
    (hvk : env.vkFromBytes pkb = some vk)
    (hver : env.verify vk rb (ops.sign sk rb) = true) :
    sign_request ops (AgentVariant.client sk : AgentVariant SK Ctx)
      [MyContextData.user A] request
      = .ok [A.bytes ++ ops.sign sk rb]
    ∧ check_request env (AgentVariant.server (some c0) : AgentVariant SK Ctx)
        [A.bytes ++ ops.sign sk rb] request
      = .ok [MyContextData.user A] := by
  constructor
  · show signTokens ops sk request [MyContextData.user A]
      = .ok [A.bytes ++ ops.sign sk rb]
    simp [signTokens, henc, Except.map]
  · rw [check_request_cons,
      checkToken_server_valid env c0 request A (ops.sign sk rb) pks pkb rb vk
        hA hsig hlk hb64 hpkl hvk henv hver]
    rfl

/-- Witness for C5: a concrete round trip through `opsN` / `envN`. -/
theorem C5_sign_verify_round_trip_witness :
    sign_request opsN (AgentVariant.client 0 : AgentVariant Nat Nat)
      [MyContextData.user ⟨List.replicate 16 7⟩] 0
      = .ok [List.replicate 16 7 ++ List.replicate 64 9]
    ∧ check_request envN (AgentVariant.server (some 0) : AgentVariant Nat Nat)
        [List.replicate 16 7 ++ List.replicate 64 9] 0
      = .ok [MyContextData.user ⟨List.replicate 16 7⟩] :=
  C5_sign_verify_round_trip opsN envN 0 0 ⟨List.replicate 16 7⟩ 0 "PK"
    (List.replicate 32 5) [1, 2, 3] 0 (by decide) (by decide) rfl rfl rfl rfl
    (by decide) rfl rfl

/-- `proto::EntityId::from_base64` model used by concrete `check_event`
witnesses: only the string "ok" resolves. -/
def fromBase64N : String → Option EntityId :=
  fun s => if s = "ok" then some ⟨[1]⟩ else none

def entMsgNone : Entity := ⟨"Message", []⟩

def entMsgBad : Entity := ⟨"Message", [("user", Value.string "bad")]⟩

def entMsgOk : Entity := ⟨"Message", [("user", Value.string "ok")]⟩

/-- Claim C2: `check_event` with an `Authenticated(A)` context on an entity
whose collection tag is "message" case-insensitively: an absent `user` field
is allowed; a present string value that fails to resolve is denied with
"Invalid user ID in message"; a resolved actor id `B` is allowed iff `B = A`,
otherwise denied with "Message user mismatch". -/
theorem C2_message_ownership (fromBase64 : String → Option EntityId)
    (A : EntityId) (ent : Entity)
    (hcoll : eq_ignore_ascii_case ent.collection "message" = true) :
    (ent.value "user" = none →
      check_event fromBase64 (MyContextData.user A) ent = .ok none)
    ∧ (∀ s, ent.value "user" = some (Value.string s) → fromBase64 s = none →
        check_event fromBase64 (MyContextData.user A) ent
          = .error (.byPolicy "Invalid user ID in message"))
    ∧ (∀ s B, ent.value "user" = some (Value.string s) → fromBase64 s = some B →
        (B = A →
          check_event fromBase64 (MyContextData.user A) ent = .ok none)
        ∧ (B ≠ A →
          check_event fromBase64 (MyContextData.user A) ent
            = .error (.byPolicy "Message user mismatch"))) := by
  refine ⟨fun hv => ?_, fun s hv hf => ?_,
    fun s B hv hf => ⟨fun hBA => ?_, fun hne => ?_⟩⟩
  · simp [check_event, hcoll, hv]
  · simp [check_event, hcoll, hv, hf]
  · subst hBA
    simp [check_event, hcoll, hv, hf]
  · simp [check_event, hcoll, hv, hf, hne]

/-- Witness for C2: all four outcomes at concrete entities in the `Message`
collection. -/
theorem C2_message_ownership_witness :
    check_event fromBase64N (MyContextData.user ⟨[1]⟩) entMsgNone = .ok none
    ∧ check_event fromBase64N (MyContextData.user ⟨[1]⟩) entMsgBad
      = .error (.byPolicy "Invalid user ID in message")
    ∧ check_event fromBase64N (MyContextData.user ⟨[1]⟩) entMsgOk = .ok none
    ∧ check_event fromBase64N (MyContextData.user ⟨[2]⟩) entMsgOk
      = .error (.byPolicy "Message user mismatch") :=
  ⟨(C2_message_ownership fromBase64N ⟨[1]⟩ entMsgNone (by decide)).1 (by decide),
    (C2_message_ownership fromBase64N ⟨[1]⟩ entMsgBad (by decide)).2.1
      "bad" (by decide) (by decide),
    ((C2_message_ownership fromBase64N ⟨[1]⟩ entMsgOk (by decide)).2.2
      "ok" ⟨[1]⟩ (by decide) (by decide)).1 rfl,
    ((C2_message_ownership fromBase64N ⟨[2]⟩ entMsgOk (by decide)).2.2
      "ok" ⟨[1]⟩ (by decide) (by decide)).2 (by decide)⟩

/-- A token of length exactly 80 classifies identically with any trailing
bytes appended: `check_request` only reads the first 80 bytes. -/
theorem checkToken_append_extra {Req VK SK Ctx : Type} (env : VerifierEnv Req VK)
    (agent : AgentVariant SK Ctx) (request : Req) (b extra : Bytes)
    (hb : b.length = 80) :
    checkToken env agent request (b ++ extra) = checkToken env agent request b := by
  have hne2 : b ≠ [] := by
    intro h
    rw [h] at hb
    exact absurd hb (by decide)
  have hne1 : b ++ extra ≠ [] := by
    intro h
    have hl := congrArg List.length h
    rw [List.length_append, hb] at hl
    exact absurd hl (by simp)
  have hl2 : ¬ b.length < 80 := by
    rw [hb]
    exact Nat.lt_irrefl 80
  have hl1 : ¬ (b ++ extra).length < 80 := by
    rw [List.length_append, hb]
    exact Nat.not_lt.mpr (Nat.le_add_right 80 _)
  have htake : (b ++ extra).take 16 = b.take 16 :=
    List.take_append_of_le_length (by rw [hb]; exact by decide)
  have hdrop : ((b ++ extra).drop 16).take 64 = (b.drop 16).take 64 := by
    rw [List.drop_append_of_le_length (by rw [hb]; exact by decide)]
    exact List.take_append_of_le_length (by rw [List.length_drop, hb])
  unfold checkToken
  rw [if_neg hne1, if_neg hl1, if_neg hne2, if_neg hl2, htake, hdrop]

/-- Claim C10: for tokens longer than 80 bytes, `check_request` uses only the
first 80 bytes (16-byte actor id, 64-byte signature) and ignores trailing
bytes; in particular a longer token whose 80-byte prefix is a valid signed
token for a registered actor verifies as `Authenticated`. -/
theorem C10_long_token_uses_first_80 {Req VK SK Ctx : Type}
    (env : VerifierEnv Req VK) (request : Req) :
    (∀ (agent : AgentVariant SK Ctx) (b extra : Bytes) (rest : List Bytes),
      b.length = 80 →
      check_request env agent ((b ++ extra) :: rest) request
        = check_request env agent (b :: rest) request)
    ∧ (∀ (c0 : Ctx) (A : EntityId) (sig extra : Bytes) (pks : String)
        (pkb rb : Bytes) (vk : VK),
        A.bytes.length = 16 → sig.length = 64 →
        env.lookupUser A = some ⟨some pks⟩ →
        env.base64Decode pks = some pkb → pkb.length = 32 →
        env.vkFromBytes pkb = some vk → env.encode request = some rb →
        env.verify vk rb sig = true →
        check_request env (AgentVariant.server (some c0) : AgentVariant SK Ctx)
          [(A.bytes ++ sig) ++ extra] request = .ok [MyContextData.user A]) := by
  constructor
  · intro agent b extra rest hb
    rw [check_request_cons, check_request_cons,
      checkToken_append_extra env agent request b extra hb]
  · intro c0 A sig extra pks pkb rb vk hA hsig hlk hb64 hpkl hvk henc hver
    rw [check_request_cons,
      checkToken_append_extra env _ request (A.bytes ++ sig) extra
        (by rw [List.length_append, hA, hsig]),
      checkToken_server_valid env c0 request A sig pks pkb rb vk
        hA hsig hlk hb64 hpkl hvk henc hver]
    rfl

/-- Witness for C10: a concrete 83-byte token behaves exactly like its 80-byte
prefix, and a valid 82-byte token authenticates. -/
theorem C10_long_token_uses_first_80_witness :
    check_request envN (AgentVariant.server (some 0) : AgentVariant Nat Nat)
        ((List.replicate 80 0 ++ [1, 2, 3]) :: []) 0
      = check_request envN (AgentVariant.server (some 0) : AgentVariant Nat Nat)
          (List.replicate 80 0 :: []) 0
    ∧ check_request envN (AgentVariant.server (some 0) : AgentVariant Nat Nat)
        [(List.replicate 16 7 ++ List.replicate 64 9) ++ [4, 4]] 0
      = .ok [MyContextData.user ⟨List.replicate 16 7⟩] := by
  obtain ⟨h1, h2⟩ := @C10_long_token_uses_first_80 Nat Nat Nat Nat envN 0
  exact ⟨h1 (AgentVariant.server (some 0)) (List.replicate 80 0) [1, 2, 3] []
      (by decide),
    h2 0 ⟨List.replicate 16 7⟩ (List.replicate 64 9) [4, 4] "PK"
      (List.replicate 32 5) [1, 2, 3] 0 (by decide) (by decide) rfl rfl
      (by decide) rfl rfl rfl⟩

end AnkurahPolicy
